import Mathlib

/-!
Shallow embedding of the expert state machine of the ai-debate-tool backend
(`backend/app/experts/consultant.py`, `backend/app/experts/debater.py`, and
the protocol resource `backend/app/prompts/debater_prompt.py`).

Modelling conventions:
* A Python `string.Template` is embedded in parsed form: a list of chunks,
  each either a literal segment or a `$placeholder` name.  `substitute`
  renders the template against a keyword environment and fails (Python
  `KeyError`) when a placeholder is missing from the environment.
* Python `dict[str, str]` / `dict[str, Template]` values are embedded as
  association lists with first-match lookup (`dictFind`); literal dicts in
  the source have distinct keys, so this agrees with Python semantics.
  `d.get(k)` is `dictFind d k`; `d[k]` is `dictGet d k` (KeyError on miss).
* Instance attributes that the constructor does not set (`_question`,
  `_answer_defending`, ...) are `Option` fields initialised to `none`;
  reading such an attribute before it is set raises in Python
  (`AttributeError`, the concrete realisation of the spec's
  `PositionNotSetError`), embedded as `Err.positionNotSet`.
* Methods become functions `Protocol → ExpertState → args → Except Err String × ExpertState`:
  the first component is the returned string or the propagated exception,
  the second the state of the object after the call (Python mutations that
  happened before the exception are kept).  All fallible sub-expressions are
  sequenced in Python keyword-argument evaluation order.
* The interactive-only attributes `_answer_a` / `_answer_b` receive the
  value of a Python `x or y` expression, which can be `None`; they are
  `Option String` fields where `none` stands for both "never assigned" and
  Python `None` (the embedded code never distinguishes the two).
-/

namespace AIDebate

/-- Exceptions that the embedded expert code can raise: reading a position
attribute that was never set (Python `AttributeError`, the spec's
`PositionNotSetError`), and a missing dictionary key or template
placeholder (Python `KeyError`, the spec's `TemplateRenderError` when
raised by template rendering). -/
inductive Err where
  | positionNotSet : Err
  | keyError : String → Err
deriving DecidableEq, Repr

/-- One piece of a parsed `string.Template`: a literal segment or a
`$name` placeholder. -/
inductive Chunk where
  | lit : String → Chunk
  | ph : String → Chunk
deriving DecidableEq, Repr

/-- Parsed form of a Python `string.Template`. -/
abbrev Template := List Chunk

/-- First-match lookup in an association list; embeds Python `dict.get`,
which returns `None` on a missing key. -/
def dictFind {α : Type} : List (String × α) → String → Option α
  | [], _ => none
  | (k, v) :: rest, key => if k = key then some v else dictFind rest key

/-- Python `d[key]`: the value on a hit, `KeyError` on a miss. -/
def dictGet {α : Type} (d : List (String × α)) (key : String) : Except Err α :=
  match dictFind d key with
  | none => .error (.keyError key)
  | some v => .ok v

/-- Python `Template.substitute(**env)`: concatenates literal segments and
looked-up placeholder values, raising `KeyError` on the first placeholder
missing from the environment. -/
def Template.substitute : Template → List (String × String) → Except Err String
  | [], _ => .ok ""
  | .lit s :: rest, env => (Template.substitute rest env).map (fun r => s ++ r)
  | .ph n :: rest, env =>
    match dictFind env n with
    | none => .error (.keyError n)
    | some v => (Template.substitute rest env).map (fun r => v ++ r)

/-- Reading an instance attribute holding position data: raises
(`AttributeError` in Python, the spec's `PositionNotSetError`) when the
attribute was never assigned. -/
def attr : Option String → Except Err String
  | none => .error .positionNotSet
  | some s => .ok s

/-- Python truthiness-based `x or y` on optional strings: keeps `x` when it
is a non-empty string, otherwise evaluates to `y` (both `None` and `""` are
falsy). -/
def pyOr (a b : Option String) : Option String :=
  match a with
  | none => b
  | some s => if s = "" then b else some s

/-- Python `str()` applied to an optional string: `None` prints as
`"None"`. -/
def pyStr : Option String → String
  | none => "None"
  | some s => s

/-- Protocol resource bundle of one expert variant: the prompt-template
module the expert binds to its `_protocol` attribute.  The `system`
template is rendered once in the constructor and plays no role in the
operations modelled here, so it is omitted. -/
structure Protocol where
  user_question : Template
  assistant_response : Template
  user_request : Template
  new_argument : List (String × Template)
  thinking_advice : List (String × String)

/-- Mutable per-expert state: the instance attributes of a
`Consultant` / `Debater` / `IDebater` object that the modelled methods read
or write.  The five last fields exist only on `IDebater` instances and stay
`none` for the other variants. -/
structure ExpertState where
  name : String
  word_limit : Nat
  question : Option String := none
  answer_defending : Option String := none
  answer_opposing : Option String := none
  current_round : Nat := 0
  current_argument : Option String := none
  opponent_name : Option String := none
  answer_a : Option String := none
  answer_b : Option String := none
  answer_defending_letter : Option String := none
  answer_opposing_letter : Option String := none
deriving DecidableEq, Repr

/-- Attribute state established by `Debater.__init__` (the transport fields
`api_key` / `provider` / `model` / `session` carry no decision logic and are
omitted): `_current_round = 0`, position attributes unset. -/
def Debater.init (name : String) (word_limit : Nat) : ExpertState :=
  { name := name, word_limit := word_limit }

/-- `Debater.initial_position` (debater.py lines 42-59): stores the three
strings verbatim, then renders `user_question` with them.  The stores
happen before the rendering, so they survive even a rendering failure. -/
def Debater.initial_position (p : Protocol) (st : ExpertState)
    (question answer_defending answer_opposing : String) :
    Except Err String × ExpertState :=
  let st := { st with
    question := some question,
    answer_defending := some answer_defending,
    answer_opposing := some answer_opposing }
  (p.user_question.substitute
    [("question", question), ("answer_defending", answer_defending),
     ("answer_opposing", answer_opposing)], st)

/-- `Debater.initial_response` (debater.py lines 61-71): pure read that
renders `assistant_response` from the stored position; attribute reads
happen in keyword order `question`, `answer_defending`, `answer_opposing`. -/
def Debater.initial_response (p : Protocol) (st : ExpertState) :
    Except Err String := do
  let question ← attr st.question
  let answer_defending ← attr st.answer_defending
  let answer_opposing ← attr st.answer_opposing
  p.assistant_response.substitute
    [("question", question), ("answer_defending", answer_defending),
     ("answer_opposing", answer_opposing)]

/-- Rendering part of `Debater.construct_argument` (debater.py lines
85-106): the full right-hand side of the assignment to
`_current_argument`, with sub-expressions in Python evaluation order
(new-argument dict lookup, position attribute reads, inner substitution,
thinking-advice dict lookup, outer substitution). -/
def Debater.render (p : Protocol) (st : ExpertState)
    (story transcript : String) : Except Err String :=
  if st.current_round = 0 then do
    let narT ← dictGet p.new_argument "opening_argument_request"
    let question ← attr st.question
    let answer_defending ← attr st.answer_defending
    let nar ← narT.substitute
      [("question", question), ("answer_defending", answer_defending)]
    let advice ← dictGet p.thinking_advice "first_round_thinking"
    p.user_request.substitute
      [("story", story), ("transcript", transcript),
       ("new_argument_request", nar), ("thinking_advice", advice),
       ("word_limit", toString st.word_limit)]
  else do
    let narT ← dictGet p.new_argument "nth_argument_request"
    let question ← attr st.question
    let answer_defending ← attr st.answer_defending
    let nar ← narT.substitute
      [("question", question), ("answer_defending", answer_defending)]
    let advice ← dictGet p.thinking_advice
      (if st.current_round = 1 then "second_round_thinking"
       else "nth_round_thinking")
    p.user_request.substitute
      [("story", story), ("transcript", transcript),
       ("new_argument_request", nar), ("thinking_advice", advice),
       ("word_limit", toString st.word_limit)]

/-- `Debater.construct_argument` (debater.py lines 73-109): renders the
user request, stores it into `_current_argument`, increments
`_current_round`, and returns it.  An exception inside the rendering
expression propagates before either assignment, leaving the state
untouched. -/
def Debater.construct_argument (p : Protocol) (st : ExpertState)
    (story transcript : String) : Except Err String × ExpertState :=
  match Debater.render p st story transcript with
  | .error e => (.error e, st)
  | .ok arg =>
    let st := { st with current_argument := some arg }
    let st := { st with current_round := st.current_round + 1 }
    (.ok arg, st)

/-- Attribute state established by `Consultant.__init__` (consultant.py
lines 33-41): identical bookkeeping to `Debater.__init__`. -/
def Consultant.init (name : String) (word_limit : Nat) : ExpertState :=
  { name := name, word_limit := word_limit }

/-- `Consultant.initial_position` (consultant.py lines 43-60): same code as
the Debater variant, against the consultant protocol resource. -/
def Consultant.initial_position (p : Protocol) (st : ExpertState)
    (question answer_defending answer_opposing : String) :
    Except Err String × ExpertState :=
  let st := { st with
    question := some question,
    answer_defending := some answer_defending,
    answer_opposing := some answer_opposing }
  (p.user_question.substitute
    [("question", question), ("answer_defending", answer_defending),
     ("answer_opposing", answer_opposing)], st)

/-- `Consultant.initial_response` (consultant.py lines 62-72). -/
def Consultant.initial_response (p : Protocol) (st : ExpertState) :
    Except Err String := do
  let question ← attr st.question
  let answer_defending ← attr st.answer_defending
  let answer_opposing ← attr st.answer_opposing
  p.assistant_response.substitute
    [("question", question), ("answer_defending", answer_defending),
     ("answer_opposing", answer_opposing)]

/-- Rendering part of `Consultant.construct_argument` (consultant.py lines
86-105): as for the Debater but the non-opening branch always uses
`"nth_round_thinking"` — the consultant has no second-round special case. -/
def Consultant.render (p : Protocol) (st : ExpertState)
    (story transcript : String) : Except Err String :=
  if st.current_round = 0 then do
    let narT ← dictGet p.new_argument "opening_argument_request"
    let question ← attr st.question
    let answer_defending ← attr st.answer_defending
    let nar ← narT.substitute
      [("question", question), ("answer_defending", answer_defending)]
    let advice ← dictGet p.thinking_advice "first_round_thinking"
    p.user_request.substitute
      [("story", story), ("transcript", transcript),
       ("new_argument_request", nar), ("thinking_advice", advice),
       ("word_limit", toString st.word_limit)]
  else do
    let narT ← dictGet p.new_argument "nth_argument_request"
    let question ← attr st.question
    let answer_defending ← attr st.answer_defending
    let nar ← narT.substitute
      [("question", question), ("answer_defending", answer_defending)]
    let advice ← dictGet p.thinking_advice "nth_round_thinking"
    p.user_request.substitute
      [("story", story), ("transcript", transcript),
       ("new_argument_request", nar), ("thinking_advice", advice),
       ("word_limit", toString st.word_limit)]

/-- `Consultant.construct_argument` (consultant.py lines 74-108). -/
def Consultant.construct_argument (p : Protocol) (st : ExpertState)
    (story transcript : String) : Except Err String × ExpertState :=
  match Consultant.render p st story transcript with
  | .error e => (.error e, st)
  | .ok arg =>
    let st := { st with current_argument := some arg }
    let st := { st with current_round := st.current_round + 1 }
    (.ok arg, st)

/-- `IDebater.construct_argument`: inherited unchanged from `Debater`
(debater.py defines no override in class `IDebater`); only the bound
protocol resource differs, which is the `p` argument here. -/
def IDebater.construct_argument (p : Protocol) (st : ExpertState)
    (story transcript : String) : Except Err String × ExpertState :=
  Debater.construct_argument p st story transcript

/-- `IDebater.initial_position` (debater.py lines 152-181): resolves the
canonical letter texts with Python `or` (defending map first), derives the
defending and opposing letters by comparing the resolved `answer_a` with
each map, indexes each map at its letter (KeyError possible), and renders
`user_question` over both canonical answers, both letters and the opponent
name.  Assignments interleave the fallible operations exactly as in the
source, so a KeyError keeps the assignments already made. -/
def IDebater.initial_position (p : Protocol) (st : ExpertState)
    (question : String) (answer_defending answer_opposing : List (String × String))
    (opponent_name : String) : Except Err String × ExpertState :=
  let st := { st with
    question := some question,
    opponent_name := some opponent_name }
  let aA := pyOr (dictFind answer_defending "A") (dictFind answer_opposing "A")
  let aB := pyOr (dictFind answer_defending "B") (dictFind answer_opposing "B")
  let st := { st with answer_a := aA, answer_b := aB }
  let adl := if aA = dictFind answer_defending "A" then "A" else "B"
  let st := { st with answer_defending_letter := some adl }
  match dictFind answer_defending adl with
  | none => (.error (.keyError adl), st)
  | some ad =>
    let st := { st with answer_defending := some ad }
    let aol := if aA = dictFind answer_opposing "A" then "A" else "B"
    let st := { st with answer_opposing_letter := some aol }
    match dictFind answer_opposing aol with
    | none => (.error (.keyError aol), st)
    | some ao =>
      let st := { st with answer_opposing := some ao }
      (p.user_question.substitute
        [("question", question), ("answer_a", pyStr aA),
         ("answer_b", pyStr aB), ("answer_defending_letter", adl),
         ("answer_opposing_letter", aol), ("opponent_name", opponent_name)], st)

/-- Thinking-advice key the Debater branch structure selects for a given
pre-increment round value: round 0 selects the first-round advice, round 1
the second-round advice, every later round the nth-round advice.  This is
the factored form of the branch tests in debater.py lines 85 and 103; the
characterisation lemmas below prove the method equal to a step that uses
it. -/
def debater_phase_key (round : Nat) : String :=
  if round = 0 then "first_round_thinking"
  else if round = 1 then "second_round_thinking"
  else "nth_round_thinking"

/-- Thinking-advice key for the Consultant: round 0 selects first-round
advice, every later round the nth-round advice (consultant.py lines 86 and
103 — no second-round case). -/
def consultant_phase_key (round : Nat) : String :=
  if round = 0 then "first_round_thinking" else "nth_round_thinking"

/-- New-argument-request key, shared by all variants: round 0 selects the
opening request, every later round the nth request (debater.py lines 89 and
99; consultant.py lines 90 and 100). -/
def new_argument_key (round : Nat) : String :=
  if round = 0 then "opening_argument_request" else "nth_argument_request"

/-- Factored form of `Debater.render`: one straight-line computation whose
dictionary keys are the selector functions applied to the pre-increment
round value. -/
def Debater.render_keyed (p : Protocol) (st : ExpertState)
    (story transcript : String) : Except Err String := do
  let narT ← dictGet p.new_argument (new_argument_key st.current_round)
  let question ← attr st.question
  let answer_defending ← attr st.answer_defending
  let nar ← narT.substitute
    [("question", question), ("answer_defending", answer_defending)]
  let advice ← dictGet p.thinking_advice (debater_phase_key st.current_round)
  p.user_request.substitute
    [("story", story), ("transcript", transcript),
     ("new_argument_request", nar), ("thinking_advice", advice),
     ("word_limit", toString st.word_limit)]

/-- Factored form of `Consultant.render`. -/
def Consultant.render_keyed (p : Protocol) (st : ExpertState)
    (story transcript : String) : Except Err String := do
  let narT ← dictGet p.new_argument (new_argument_key st.current_round)
  let question ← attr st.question
  let answer_defending ← attr st.answer_defending
  let nar ← narT.substitute
    [("question", question), ("answer_defending", answer_defending)]
  let advice ← dictGet p.thinking_advice (consultant_phase_key st.current_round)
  p.user_request.substitute
    [("story", story), ("transcript", transcript),
     ("new_argument_request", nar), ("thinking_advice", advice),
     ("word_limit", toString st.word_limit)]

/-- Factored form of `Debater.construct_argument`: render with the keyed
selectors, then store the argument and increment the round by one. -/
def Debater.construct_argument_keyed (p : Protocol) (st : ExpertState)
    (story transcript : String) : Except Err String × ExpertState :=
  match Debater.render_keyed p st story transcript with
  | .error e => (.error e, st)
  | .ok arg =>
    (.ok arg, { st with
      current_argument := some arg,
      current_round := st.current_round + 1 })

/-- Factored form of `Consultant.construct_argument`. -/
def Consultant.construct_argument_keyed (p : Protocol) (st : ExpertState)
    (story transcript : String) : Except Err String × ExpertState :=
  match Consultant.render_keyed p st story transcript with
  | .error e => (.error e, st)
  | .ok arg =>
    (.ok arg, { st with
      current_argument := some arg,
      current_round := st.current_round + 1 })

/-- Outcome of a sequence of `Debater.construct_argument` calls: state after
`n` calls when all succeeded, or the first propagated exception.  The
`inputs` function supplies the story/transcript pair of each call. -/
def Debater.runN (p : Protocol) (inputs : Nat → String × String)
    (st : ExpertState) : Nat → Except Err ExpertState
  | 0 => .ok st
  | n + 1 =>
    match Debater.runN p inputs st n with
    | .error e => .error e
    | .ok stn =>
      match Debater.construct_argument p stn (inputs n).1 (inputs n).2 with
      | (.ok _, stn1) => .ok stn1
      | (.error e, _) => .error e

/-- Outcome of a sequence of `Consultant.construct_argument` calls. -/
def Consultant.runN (p : Protocol) (inputs : Nat → String × String)
    (st : ExpertState) : Nat → Except Err ExpertState
  | 0 => .ok st
  | n + 1 =>
    match Consultant.runN p inputs st n with
    | .error e => .error e
    | .ok stn =>
      match Consultant.construct_argument p stn (inputs n).1 (inputs n).2 with
      | (.ok _, stn1) => .ok stn1
      | (.error e, _) => .error e

/-- Round counter visible after a (possibly failed) call sequence. -/
def roundAfter : Except Err ExpertState → Option Nat
  | .ok s => some s.current_round
  | .error _ => none

/-- Concrete protocol resource of the Debater variant, the parsed form of
`backend/app/prompts/debater_prompt.py` (the `system` template is rendered
only in the constructor and is omitted, as in `Protocol`). -/
def debaterProtocol : Protocol where
  user_question :=
    [.lit "Here is the question and the two answers:\n<question>",
     .ph "question",
     .lit "</question>\n<your_answer>",
     .ph "answer_defending",
     .lit "</your_answer>\n<opponent_answer>",
     .ph "answer_opposing",
     .lit "</opponent_answer>\nPlease restate your position and the position you are arguing against to confirm you understand."]
  assistant_response :=
    [.lit "I understand. I will argue that the answer to the question \"",
     .ph "question",
     .lit "\" is \"",
     .ph "answer_defending",
     .lit "\". I will argue against the answer \"",
     .ph "answer_opposing",
     .lit "\"."]
  user_request :=
    [.lit "<story>\n",
     .ph "story",
     .lit "\n</story>\nHere's the current transcript of the debate:\n<transcript>\n",
     .ph "transcript",
     .lit "\n</transcript>\n\n",
     .ph "new_argument_request",
     .lit "\nFirst, think about your argument in <thinking></thinking> tags by carrying out these steps:\n",
     .ph "thinking_advice",
     .lit "\nFinally, write your argument in <argument></argument> tags.\nDo not exceed ",
     .ph "word_limit",
     .lit " words.\nRemember to output <thinking> and <argument> stages in your response and <quote> tags around direct quotes."]
  new_argument :=
    [("opening_argument_request",
      [.lit "Now it's your turn to construct your opening argument for why the answer to the question \"",
       .ph "question",
       .lit "\" is \"",
       .ph "answer_defending",
       .lit "\"."]),
     ("nth_argument_request",
      [.lit "Now it's your turn to construct your next argument for why the answer to the question \"",
       .ph "question",
       .lit "\" is \"",
       .ph "answer_defending",
       .lit "\"."])]
  thinking_advice :=
    [("first_round_thinking",
      "1. Consider what extra context the judge needs to know about the story for your answer to make sense. You should include this context in your argument.\n2. Thinking step by step, plan an argument for your position.\n3. Select the best quotes from the story to use in your argument."),
     ("second_round_thinking",
      "1. List out the biggest flaws in your opponent's argument.\n2. Thinking step by step, critique your opponent's argument.\n3. Select the best quotes from the story to disprove your opponent's argument."),
     ("nth_round_thinking",
      "1. List the critiques the opponent has made to your argument.\n2. Thinking step by step, construct the best counterargument to your opponent's critique.\n3. Select the best quotes from the story to disprove your opponent's critique.")]

/-- Characterisation: the branchy source translation of the Debater's
rendering equals the keyed straight-line form, so the dictionary keys it
uses are exactly `new_argument_key` and `debater_phase_key` applied to the
round value read before any mutation. -/
theorem debater_render_eq_keyed (p : Protocol) (st : ExpertState)
    (story transcript : String) :
    Debater.render p st story transcript =
      Debater.render_keyed p st story transcript := by
  unfold Debater.render Debater.render_keyed debater_phase_key new_argument_key
  rcases h : st.current_round with _ | _ | n <;> simp [h]

/-- Characterisation for the Consultant's rendering. -/
theorem consultant_render_eq_keyed (p : Protocol) (st : ExpertState)
    (story transcript : String) :
    Consultant.render p st story transcript =
      Consultant.render_keyed p st story transcript := by
  unfold Consultant.render Consultant.render_keyed consultant_phase_key
    new_argument_key
  rcases h : st.current_round with _ | n <;> simp [h]

/-- Characterisation for `Debater.construct_argument`. -/
theorem debater_construct_eq_keyed (p : Protocol) (st : ExpertState)
    (story transcript : String) :
    Debater.construct_argument p st story transcript =
      Debater.construct_argument_keyed p st story transcript := by
  unfold Debater.construct_argument Debater.construct_argument_keyed
  rw [debater_render_eq_keyed]

/-- Characterisation for `Consultant.construct_argument`. -/
theorem consultant_construct_eq_keyed (p : Protocol) (st : ExpertState)
    (story transcript : String) :
    Consultant.construct_argument p st story transcript =
      Consultant.construct_argument_keyed p st story transcript := by
  unfold Consultant.construct_argument Consultant.construct_argument_keyed
  rw [consultant_render_eq_keyed]

/-- A failed `Debater.construct_argument` call leaves the state untouched. -/
theorem debater_construct_error_frame (p : Protocol) (st : ExpertState)
    (story transcript : String) (e : Err)
    (h : (Debater.construct_argument p st story transcript).1 = .error e) :
    (Debater.construct_argument p st story transcript).2 = st := by
  unfold Debater.construct_argument at h ⊢
  cases hr : Debater.render p st story transcript <;> simp [hr] at h ⊢

/-- A failed `Consultant.construct_argument` call leaves the state
untouched. -/
theorem consultant_construct_error_frame (p : Protocol) (st : ExpertState)
    (story transcript : String) (e : Err)
    (h : (Consultant.construct_argument p st story transcript).1 = .error e) :
    (Consultant.construct_argument p st story transcript).2 = st := by
  unfold Consultant.construct_argument at h ⊢
  cases hr : Consultant.render p st story transcript <;> simp [hr] at h ⊢

/-- A successful `Debater.construct_argument` call increments the round by
exactly one. -/
theorem debater_construct_ok_round (p : Protocol) (st : ExpertState)
    (story transcript : String) (a : String)
    (h : (Debater.construct_argument p st story transcript).1 = .ok a) :
    (Debater.construct_argument p st story transcript).2.current_round =
      st.current_round + 1 := by
  unfold Debater.construct_argument at h ⊢
  cases hr : Debater.render p st story transcript <;> simp [hr] at h ⊢

/-- A successful `Consultant.construct_argument` call increments the round
by exactly one. -/
theorem consultant_construct_ok_round (p : Protocol) (st : ExpertState)
    (story transcript : String) (a : String)
    (h : (Consultant.construct_argument p st story transcript).1 = .ok a) :
    (Consultant.construct_argument p st story transcript).2.current_round =
      st.current_round + 1 := by
  unfold Consultant.construct_argument at h ⊢
  cases hr : Consultant.render p st story transcript <;> simp [hr] at h ⊢

/-- After `n` uniformly successful `Debater.construct_argument` calls the
round counter has grown by exactly `n`. -/
theorem debater_runN_round (p : Protocol) (inputs : Nat → String × String)
    (st : ExpertState) :
    ∀ n stn, Debater.runN p inputs st n = .ok stn →
      stn.current_round = st.current_round + n := by
  intro n
  induction n with
  | zero =>
    intro stn h
    simp [Debater.runN] at h
    rw [← h, Nat.add_zero]
  | succ n ih =>
    intro stn h
    unfold Debater.runN at h
    split at h
    · exact Except.noConfusion h
    · rename_i stm heq1
      split at h
      · rename_i a stn1 heq2
        have h0 : stn1 = stn := by simpa using h
        subst h0
        have h1 : (Debater.construct_argument p stm (inputs n).1 (inputs n).2).1
            = .ok a := by rw [heq2]
        have h2 := debater_construct_ok_round p stm (inputs n).1 (inputs n).2 a h1
        rw [heq2] at h2
        have h3 := ih stm heq1
        simp at h2
        omega
      · exact Except.noConfusion h

/-- After `n` uniformly successful `Consultant.construct_argument` calls the
round counter has grown by exactly `n`. -/
theorem consultant_runN_round (p : Protocol) (inputs : Nat → String × String)
    (st : ExpertState) :
    ∀ n stn, Consultant.runN p inputs st n = .ok stn →
      stn.current_round = st.current_round + n := by
  intro n
  induction n with
  | zero =>
    intro stn h
    simp [Consultant.runN] at h
    rw [← h, Nat.add_zero]
  | succ n ih =>
    intro stn h
    unfold Consultant.runN at h
    split at h
    · exact Except.noConfusion h
    · rename_i stm heq1
      split at h
      · rename_i a stn1 heq2
        have h0 : stn1 = stn := by simpa using h
        subst h0
        have h1 : (Consultant.construct_argument p stm (inputs n).1 (inputs n).2).1
            = .ok a := by rw [heq2]
        have h2 := consultant_construct_ok_round p stm (inputs n).1 (inputs n).2 a h1
        rw [heq2] at h2
        have h3 := ih stm heq1
        simp at h2
        omega
      · exact Except.noConfusion h

/-- A successful run of `n + 1` Debater calls contains a successful run of
its first `n` calls. -/
theorem debater_runN_isOk_mono (p : Protocol) (inputs : Nat → String × String)
    (st : ExpertState) (n : Nat)
    (h : (Debater.runN p inputs st (n + 1)).isOk = true) :
    (Debater.runN p inputs st n).isOk = true := by
  unfold Debater.runN at h
  split at h
  · simp [Except.isOk, Except.toBool] at h
  · rename_i stm heq
    rw [heq]
    rfl

/-- A successful run of `n + 1` Consultant calls contains a successful run
of its first `n` calls. -/
theorem consultant_runN_isOk_mono (p : Protocol) (inputs : Nat → String × String)
    (st : ExpertState) (n : Nat)
    (h : (Consultant.runN p inputs st (n + 1)).isOk = true) :
    (Consultant.runN p inputs st n).isOk = true := by
  unfold Consultant.runN at h
  split at h
  · simp [Except.isOk, Except.toBool] at h
  · rename_i stm heq
    rw [heq]
    rfl

/-- Every prefix of a successful Debater run is successful. -/
theorem debater_runN_isOk_le (p : Protocol) (inputs : Nat → String × String)
    (st : ExpertState) :
    ∀ N k, k ≤ N → (Debater.runN p inputs st N).isOk = true →
      (Debater.runN p inputs st k).isOk = true := by
  intro N
  induction N with
  | zero =>
    intro k hk h
    have : k = 0 := Nat.le_zero.mp hk
    rw [this]; exact h
  | succ N ih =>
    intro k hk h
    rcases Nat.eq_or_lt_of_le hk with heq | hlt
    · rw [heq]; exact h
    · exact ih k (Nat.lt_succ_iff.mp hlt) (debater_runN_isOk_mono p inputs st N h)

/-- Every prefix of a successful Consultant run is successful. -/
theorem consultant_runN_isOk_le (p : Protocol) (inputs : Nat → String × String)
    (st : ExpertState) :
    ∀ N k, k ≤ N → (Consultant.runN p inputs st N).isOk = true →
      (Consultant.runN p inputs st k).isOk = true := by
  intro N
  induction N with
  | zero =>
    intro k hk h
    have : k = 0 := Nat.le_zero.mp hk
    rw [this]; exact h
  | succ N ih =>
    intro k hk h
    rcases Nat.eq_or_lt_of_le hk with heq | hlt
    · rw [heq]; exact h
    · exact ih k (Nat.lt_succ_iff.mp hlt) (consultant_runN_isOk_mono p inputs st N h)

/-- A successful prefix evaluates `roundAfter` to its length when the run
started at round 0. -/
theorem debater_runN_roundAfter (p : Protocol) (inputs : Nat → String × String)
    (st : ExpertState) (h0 : st.current_round = 0) (k : Nat)
    (h : (Debater.runN p inputs st k).isOk = true) :
    roundAfter (Debater.runN p inputs st k) = some k := by
  cases hk : Debater.runN p inputs st k with
  | error e => rw [hk] at h; simp [Except.isOk, Except.toBool] at h
  | ok stk =>
    have := debater_runN_round p inputs st k stk hk
    simp [roundAfter, this, h0]

/-- Consultant version of `debater_runN_roundAfter`. -/
theorem consultant_runN_roundAfter (p : Protocol) (inputs : Nat → String × String)
    (st : ExpertState) (h0 : st.current_round = 0) (k : Nat)
    (h : (Consultant.runN p inputs st k).isOk = true) :
    roundAfter (Consultant.runN p inputs st k) = some k := by
  cases hk : Consultant.runN p inputs st k with
  | error e => rw [hk] at h; simp [Except.isOk, Except.toBool] at h
  | ok stk =>
    have := consultant_runN_round p inputs st k stk hk
    simp [roundAfter, this, h0]

/-- Example state of an expert whose position has been set, used to
instantiate universally quantified theorems on a concrete input. -/
def testState : ExpertState :=
  { name := "Alice", word_limit := 100, question := some "Q",
    answer_defending := some "D", answer_opposing := some "O" }

/-- Protocol whose user-request template refers to a placeholder the engine
does not supply, so that rendering it fails. -/
def brokenProtocol : Protocol :=
  { debaterProtocol with user_request := [.ph "bogus"] }

/-- Claim C1: starting from round 0, a sequence of N successful
`construct_argument` calls (any variant; `IDebater` inherits the Debater
method, third conjunct) leaves `current_round = N`, with each prefix of k
calls at round k, every successful call incrementing the counter by exactly
one, and the call equal to the keyed step that reads its phase and
new-argument keys off the pre-increment round value. -/
theorem claim_C1_round_monotonicity (p : Protocol)
    (inputs : Nat → String × String) (st : ExpertState)
    (h0 : st.current_round = 0) (N : Nat) :
    ((Debater.runN p inputs st N).isOk = true →
      ∀ k, k ≤ N → roundAfter (Debater.runN p inputs st k) = some k)
  ∧ ((Consultant.runN p inputs st N).isOk = true →
      ∀ k, k ≤ N → roundAfter (Consultant.runN p inputs st k) = some k)
  ∧ (∀ st2 story transcript,
      IDebater.construct_argument p st2 story transcript =
        Debater.construct_argument p st2 story transcript)
  ∧ (∀ st2 story transcript a,
      (Debater.construct_argument p st2 story transcript).1 = .ok a →
        (Debater.construct_argument p st2 story transcript).2.current_round =
          st2.current_round + 1)
  ∧ (∀ st2 story transcript a,
      (Consultant.construct_argument p st2 story transcript).1 = .ok a →
        (Consultant.construct_argument p st2 story transcript).2.current_round =
          st2.current_round + 1)
  ∧ (∀ st2 story transcript,
      Debater.construct_argument p st2 story transcript =
        Debater.construct_argument_keyed p st2 story transcript)
  ∧ (∀ st2 story transcript,
      Consultant.construct_argument p st2 story transcript =
        Consultant.construct_argument_keyed p st2 story transcript) := by
  refine ⟨?_, ?_, ?_, ?_, ?_, ?_, ?_⟩
  · intro h k hk
    exact debater_runN_roundAfter p inputs st h0 k
      (debater_runN_isOk_le p inputs st N k hk h)
  · intro h k hk
    exact consultant_runN_roundAfter p inputs st h0 k
      (consultant_runN_isOk_le p inputs st N k hk h)
  · intro st2 story transcript
    rfl
  · intro st2 story transcript a ha
    exact debater_construct_ok_round p st2 story transcript a ha
  · intro st2 story transcript a ha
    exact consultant_construct_ok_round p st2 story transcript a ha
  · intro st2 story transcript
    exact debater_construct_eq_keyed p st2 story transcript
  · intro st2 story transcript
    exact consultant_construct_eq_keyed p st2 story transcript

/-- Witness for C1: three successful Debater calls on a concrete state over
the real debater protocol end with the round counter at 3. -/
theorem claim_C1_round_monotonicity_witness :
    roundAfter (Debater.runN debaterProtocol (fun _ => ("story", "transcript"))
      testState 3) = some 3 :=
  (claim_C1_round_monotonicity debaterProtocol (fun _ => ("story", "transcript"))
      testState rfl 3).1 (by rfl) 3 (by decide)

/-- Claim C2: thinking-advice selection from the pre-increment round —
Debater (and the inherited IDebater method): round 0 first, round 1 second,
round at least 2 nth; Consultant: round 0 first, round at least 1 nth, no
second-round distinction.  The rendering characterisations tie the keys to
the actual method bodies. -/
theorem claim_C2_phase_selection :
    debater_phase_key 0 = "first_round_thinking"
  ∧ debater_phase_key 1 = "second_round_thinking"
  ∧ (∀ r, 2 ≤ r → debater_phase_key r = "nth_round_thinking")
  ∧ consultant_phase_key 0 = "first_round_thinking"
  ∧ (∀ r, 1 ≤ r → consultant_phase_key r = "nth_round_thinking")
  ∧ (∀ p st story transcript,
      Debater.render p st story transcript =
        Debater.render_keyed p st story transcript)
  ∧ (∀ p st story transcript,
      Consultant.render p st story transcript =
        Consultant.render_keyed p st story transcript)
  ∧ (∀ p st story transcript,
      IDebater.construct_argument p st story transcript =
        Debater.construct_argument p st story transcript) := by
  refine ⟨rfl, rfl, ?_, rfl, ?_, ?_, ?_, ?_⟩
  · intro r hr
    unfold debater_phase_key
    rw [if_neg (by omega), if_neg (by omega)]
  · intro r hr
    unfold consultant_phase_key
    rw [if_neg (by omega)]
  · intro p st story transcript
    exact debater_render_eq_keyed p st story transcript
  · intro p st story transcript
    exact consultant_render_eq_keyed p st story transcript
  · intro p st story transcript
    rfl

/-- Witness for C2: the phase keys at concrete rounds 5 (Debater) and 3
(Consultant). -/
theorem claim_C2_phase_selection_witness :
    debater_phase_key 5 = "nth_round_thinking"
  ∧ consultant_phase_key 3 = "nth_round_thinking" :=
  ⟨claim_C2_phase_selection.2.2.1 5 (by decide),
   claim_C2_phase_selection.2.2.2.2.1 3 (by decide)⟩

/-- Claim C3: an error inside the rendering of `construct_argument`
propagates to the caller and leaves the expert state exactly as before the
call (round not incremented, current argument untouched), for all three
variants. -/
theorem claim_C3_error_atomicity (p : Protocol) (st : ExpertState)
    (story transcript : String) (e : Err) :
    ((Debater.construct_argument p st story transcript).1 = .error e →
      (Debater.construct_argument p st story transcript).2 = st)
  ∧ ((Consultant.construct_argument p st story transcript).1 = .error e →
      (Consultant.construct_argument p st story transcript).2 = st)
  ∧ ((IDebater.construct_argument p st story transcript).1 = .error e →
      (IDebater.construct_argument p st story transcript).2 = st) :=
  ⟨debater_construct_error_frame p st story transcript e,
   consultant_construct_error_frame p st story transcript e,
   debater_construct_error_frame p st story transcript e⟩

/-- Witness for C3: with a user-request template holding an unsupplied
placeholder, the call fails and the concrete state is returned unchanged. -/
theorem claim_C3_error_atomicity_witness :
    (Debater.construct_argument brokenProtocol testState "s" "t").2 = testState :=
  (claim_C3_error_atomicity brokenProtocol testState "s" "t"
    (.keyError "bogus")).1 (by rfl)

/-- Claim C4: before `initial_position`, `construct_argument` and
`initial_response` fail with the position-not-set error and the round
counter stays 0, for Consultant and Debater.  The hypothesis only asks the
protocol to supply the opening-argument template, whose dictionary lookup
precedes the position read in Python evaluation order. -/
theorem claim_C4_position_not_set (p : Protocol) (name : String)
    (word_limit : Nat) (story transcript : String)
    (hD : (dictFind p.new_argument "opening_argument_request").isSome = true) :
    ((Debater.construct_argument p (Debater.init name word_limit)
        story transcript).1 = .error .positionNotSet)
  ∧ ((Debater.construct_argument p (Debater.init name word_limit)
        story transcript).2.current_round = 0)
  ∧ (Debater.initial_response p (Debater.init name word_limit) =
        .error .positionNotSet)
  ∧ ((Consultant.construct_argument p (Consultant.init name word_limit)
        story transcript).1 = .error .positionNotSet)
  ∧ ((Consultant.construct_argument p (Consultant.init name word_limit)
        story transcript).2.current_round = 0)
  ∧ (Consultant.initial_response p (Consultant.init name word_limit) =
        .error .positionNotSet) := by
  obtain ⟨t, ht⟩ := Option.isSome_iff_exists.mp hD
  refine ⟨?_, ?_, ?_, ?_, ?_, ?_⟩ <;>
    simp [Debater.construct_argument, Debater.render, Debater.init,
      Debater.initial_response, Consultant.construct_argument,
      Consultant.render, Consultant.init, Consultant.initial_response,
      dictGet, ht, attr, Bind.bind, Except.bind]

/-- Witness for C4: the concrete Debater protocol satisfies the lookup
hypothesis and a fresh expert raises the position error. -/
theorem claim_C4_position_not_set_witness :
    (Debater.construct_argument debaterProtocol (Debater.init "Alice" 100)
      "s" "t").1 = .error .positionNotSet :=
  (claim_C4_position_not_set debaterProtocol "Alice" 100 "s" "t" (by rfl)).1

/-- Resolved canonical answer A after `IDebater.initial_position`: the
defending map's entry read first, the opposing map's entry as truthiness
fallback, on every exit path of the method. -/
theorem IDebater.answer_a_spec (p : Protocol) (st : ExpertState)
    (question : String) (d o : List (String × String)) (opponent_name : String) :
    (IDebater.initial_position p st question d o opponent_name).2.answer_a =
      pyOr (dictFind d "A") (dictFind o "A") := by
  unfold IDebater.initial_position
  dsimp only
  split
  · rfl
  · split <;> rfl

/-- Resolved canonical answer B after `IDebater.initial_position`. -/
theorem IDebater.answer_b_spec (p : Protocol) (st : ExpertState)
    (question : String) (d o : List (String × String)) (opponent_name : String) :
    (IDebater.initial_position p st question d o opponent_name).2.answer_b =
      pyOr (dictFind d "B") (dictFind o "B") := by
  unfold IDebater.initial_position
  dsimp only
  split
  · rfl
  · split <;> rfl

/-- Claim C5: concrete interactive letter resolution — defending map A/X
with opposing map B/Y resolves answers X and Y to letters A and B with the
defending letter A; with the maps' roles swapped the defending letter is B
and the opposing letter A. -/
theorem claim_C5_letter_resolution (p : Protocol) (st : ExpertState)
    (question opponent_name : String) :
    ((IDebater.initial_position p st question
        [("A", "X")] [("B", "Y")] opponent_name).2.answer_a = some "X")
  ∧ ((IDebater.initial_position p st question
        [("A", "X")] [("B", "Y")] opponent_name).2.answer_b = some "Y")
  ∧ ((IDebater.initial_position p st question
        [("A", "X")] [("B", "Y")] opponent_name).2.answer_defending_letter =
        some "A")
  ∧ ((IDebater.initial_position p st question
        [("A", "X")] [("B", "Y")] opponent_name).2.answer_opposing_letter =
        some "B")
  ∧ ((IDebater.initial_position p st question
        [("B", "Y")] [("A", "X")] opponent_name).2.answer_defending_letter =
        some "B")
  ∧ ((IDebater.initial_position p st question
        [("B", "Y")] [("A", "X")] opponent_name).2.answer_opposing_letter =
        some "A") := by
  refine ⟨?_, ?_, ?_, ?_, ?_, ?_⟩ <;> rfl

/-- Claim C6: when each input map supplies exactly one letter with non-empty
text and together they cover both letters, the resolved letters are distinct
and exhaust A and B, the defending/opposing texts are the maps' texts, and
the canonical A/B slots hold the texts supplied for A and B. -/
theorem claim_C6_wellformed_resolution (p : Protocol) (st : ExpertState)
    (question opponent_name x y : String) (hx : x ≠ "") (hy : y ≠ "") :
    ((IDebater.initial_position p st question
        [("A", x)] [("B", y)] opponent_name).2.answer_defending_letter = some "A"
     ∧ (IDebater.initial_position p st question
        [("A", x)] [("B", y)] opponent_name).2.answer_opposing_letter = some "B"
     ∧ (IDebater.initial_position p st question
        [("A", x)] [("B", y)] opponent_name).2.answer_defending = some x
     ∧ (IDebater.initial_position p st question
        [("A", x)] [("B", y)] opponent_name).2.answer_opposing = some y
     ∧ (IDebater.initial_position p st question
        [("A", x)] [("B", y)] opponent_name).2.answer_a = some x
     ∧ (IDebater.initial_position p st question
        [("A", x)] [("B", y)] opponent_name).2.answer_b = some y
     ∧ (IDebater.initial_position p st question
        [("A", x)] [("B", y)] opponent_name).2.answer_defending_letter ≠
       (IDebater.initial_position p st question
        [("A", x)] [("B", y)] opponent_name).2.answer_opposing_letter)
  ∧ ((IDebater.initial_position p st question
        [("B", y)] [("A", x)] opponent_name).2.answer_defending_letter = some "B"
     ∧ (IDebater.initial_position p st question
        [("B", y)] [("A", x)] opponent_name).2.answer_opposing_letter = some "A"
     ∧ (IDebater.initial_position p st question
        [("B", y)] [("A", x)] opponent_name).2.answer_defending = some y
     ∧ (IDebater.initial_position p st question
        [("B", y)] [("A", x)] opponent_name).2.answer_opposing = some x
     ∧ (IDebater.initial_position p st question
        [("B", y)] [("A", x)] opponent_name).2.answer_a = some x
     ∧ (IDebater.initial_position p st question
        [("B", y)] [("A", x)] opponent_name).2.answer_b = some y
     ∧ (IDebater.initial_position p st question
        [("B", y)] [("A", x)] opponent_name).2.answer_defending_letter ≠
       (IDebater.initial_position p st question
        [("B", y)] [("A", x)] opponent_name).2.answer_opposing_letter) := by
  constructor <;>
  · refine ⟨?_, ?_, ?_, ?_, ?_, ?_, ?_⟩ <;>
      simp [IDebater.initial_position, pyOr, dictFind, hx, hy]

/-- Witness for C6: the resolution at the concrete non-empty texts X and
Y. -/
theorem claim_C6_wellformed_resolution_witness :
    (IDebater.initial_position debaterProtocol (Debater.init "Alice" 100) "Q"
      [("A", "X")] [("B", "Y")] "Bob").2.answer_defending = some "X"
  ∧ (IDebater.initial_position debaterProtocol (Debater.init "Alice" 100) "Q"
      [("B", "Y")] [("A", "X")] "Bob").2.answer_defending = some "Y" :=
  ⟨(claim_C6_wellformed_resolution debaterProtocol (Debater.init "Alice" 100)
      "Q" "Bob" "X" "Y" (by decide) (by decide)).1.2.2.1,
   (claim_C6_wellformed_resolution debaterProtocol (Debater.init "Alice" 100)
      "Q" "Bob" "X" "Y" (by decide) (by decide)).2.2.2.1⟩

/-- Claim C7: canonical-answer resolution prefers the defending map — a
non-empty defending entry for a letter wins even when the opposing map
defines the same letter with a different non-empty text, and the opposing
entry is used exactly when the defending entry is absent or empty. -/
theorem claim_C7_defending_precedence (p : Protocol) (st : ExpertState)
    (question opponent_name : String) (d o : List (String × String)) :
    (∀ x, dictFind d "A" = some x → x ≠ "" →
      (IDebater.initial_position p st question d o opponent_name).2.answer_a =
        some x)
  ∧ (dictFind d "A" = none →
      (IDebater.initial_position p st question d o opponent_name).2.answer_a =
        dictFind o "A")
  ∧ (dictFind d "A" = some "" →
      (IDebater.initial_position p st question d o opponent_name).2.answer_a =
        dictFind o "A")
  ∧ (∀ x, dictFind d "B" = some x → x ≠ "" →
      (IDebater.initial_position p st question d o opponent_name).2.answer_b =
        some x)
  ∧ (dictFind d "B" = none →
      (IDebater.initial_position p st question d o opponent_name).2.answer_b =
        dictFind o "B")
  ∧ (dictFind d "B" = some "" →
      (IDebater.initial_position p st question d o opponent_name).2.answer_b =
        dictFind o "B") := by
  refine ⟨?_, ?_, ?_, ?_, ?_, ?_⟩
  · intro x h1 h2
    rw [IDebater.answer_a_spec p st question d o opponent_name]
    simp [pyOr, h1, h2]
  · intro h1
    rw [IDebater.answer_a_spec p st question d o opponent_name]
    simp [pyOr, h1]
  · intro h1
    rw [IDebater.answer_a_spec p st question d o opponent_name]
    simp [pyOr, h1]
  · intro x h1 h2
    rw [IDebater.answer_b_spec p st question d o opponent_name]
    simp [pyOr, h1, h2]
  · intro h1
    rw [IDebater.answer_b_spec p st question d o opponent_name]
    simp [pyOr, h1]
  · intro h1
    rw [IDebater.answer_b_spec p st question d o opponent_name]
    simp [pyOr, h1]

/-- Witness for C7: both maps define letter A with different non-empty
texts; the defending map's text wins. -/
theorem claim_C7_defending_precedence_witness :
    (IDebater.initial_position debaterProtocol (Debater.init "Alice" 100) "Q"
      [("A", "X")] [("A", "Z")] "Bob").2.answer_a = some "X" :=
  (claim_C7_defending_precedence debaterProtocol (Debater.init "Alice" 100)
    "Q" "Bob" [("A", "X")] [("A", "Z")]).1 "X" rfl (by decide)

/-- Claim C8: the new-argument-request key read off the pre-increment round
is the opening request at round 0 and the nth request from round 1 on, for
all three variants alike (the keyed characterisations expose the key used
by each method body). -/
theorem claim_C8_new_argument_selection :
    new_argument_key 0 = "opening_argument_request"
  ∧ (∀ r, 1 ≤ r → new_argument_key r = "nth_argument_request")
  ∧ (∀ p st story transcript,
      Debater.construct_argument p st story transcript =
        Debater.construct_argument_keyed p st story transcript)
  ∧ (∀ p st story transcript,
      Consultant.construct_argument p st story transcript =
        Consultant.construct_argument_keyed p st story transcript)
  ∧ (∀ p st story transcript,
      IDebater.construct_argument p st story transcript =
        Debater.construct_argument_keyed p st story transcript) := by
  refine ⟨rfl, ?_, ?_, ?_, ?_⟩
  · intro r hr
    unfold new_argument_key
    rw [if_neg (by omega)]
  · intro p st story transcript
    exact debater_construct_eq_keyed p st story transcript
  · intro p st story transcript
    exact consultant_construct_eq_keyed p st story transcript
  · intro p st story transcript
    exact debater_construct_eq_keyed p st story transcript

/-- Witness for C8: the key at the concrete round 4. -/
theorem claim_C8_new_argument_selection_witness :
    new_argument_key 4 = "nth_argument_request" :=
  claim_C8_new_argument_selection.2.1 4 (by decide)

/-- Claim C9: `initial_position` on a Consultant or Debater stores the three
strings verbatim and changes nothing else (in particular the round counter),
returns the user-question template rendered with exactly those three values
(the render succeeds on the concrete debater protocol), and a repeated call
silently overwrites the stored position, behaving as if the first call had
never happened. -/
theorem claim_C9_initial_position (p : Protocol) (st : ExpertState)
    (question answer_defending answer_opposing : String) :
    ((Debater.initial_position p st question answer_defending answer_opposing).2 =
      { st with question := some question,
                answer_defending := some answer_defending,
                answer_opposing := some answer_opposing })
  ∧ ((Debater.initial_position p st question answer_defending answer_opposing).2.current_round
      = st.current_round)
  ∧ ((Debater.initial_position p st question answer_defending answer_opposing).1 =
      p.user_question.substitute
        [("question", question), ("answer_defending", answer_defending),
         ("answer_opposing", answer_opposing)])
  ∧ (∀ q2 a2 o2, Debater.initial_position p
      (Debater.initial_position p st question answer_defending answer_opposing).2
        q2 a2 o2 = Debater.initial_position p st q2 a2 o2)
  ∧ ((Debater.initial_position debaterProtocol st question answer_defending
        answer_opposing).1.isOk = true)
  ∧ ((Consultant.initial_position p st question answer_defending answer_opposing).2 =
      { st with question := some question,
                answer_defending := some answer_defending,
                answer_opposing := some answer_opposing })
  ∧ ((Consultant.initial_position p st question answer_defending answer_opposing).2.current_round
      = st.current_round)
  ∧ ((Consultant.initial_position p st question answer_defending answer_opposing).1 =
      p.user_question.substitute
        [("question", question), ("answer_defending", answer_defending),
         ("answer_opposing", answer_opposing)])
  ∧ (∀ q2 a2 o2, Consultant.initial_position p
      (Consultant.initial_position p st question answer_defending answer_opposing).2
        q2 a2 o2 = Consultant.initial_position p st q2 a2 o2) := by
  refine ⟨rfl, rfl, rfl, ?_, ?_, rfl, rfl, rfl, ?_⟩
  · intro q2 a2 o2
    rfl
  · rfl
  · intro q2 a2 o2
    rfl

/-- Claim C10: `construct_argument` of the Consultant and Debater variants
never reads the stored opposing answer — on two states that differ only in
`answer_opposing` the call returns the same text (or the same error) and
performs the same updates, the resulting states again differing only in
`answer_opposing`. -/
theorem claim_C10_opposing_noninterference (p : Protocol) (st : ExpertState)
    (v : Option String) (story transcript : String) :
    (Debater.construct_argument p { st with answer_opposing := v }
        story transcript =
      ((Debater.construct_argument p st story transcript).1,
       { (Debater.construct_argument p st story transcript).2 with
           answer_opposing := v }))
  ∧ (Consultant.construct_argument p { st with answer_opposing := v }
        story transcript =
      ((Consultant.construct_argument p st story transcript).1,
       { (Consultant.construct_argument p st story transcript).2 with
           answer_opposing := v })) := by
  constructor
  · have hr : Debater.render p { st with answer_opposing := v } story transcript
        = Debater.render p st story transcript := rfl
    unfold Debater.construct_argument
    rw [hr]
    cases h : Debater.render p st story transcript <;> rfl
  · have hr : Consultant.render p { st with answer_opposing := v } story transcript
        = Consultant.render p st story transcript := rfl
    unfold Consultant.construct_argument
    rw [hr]
    cases h : Consultant.render p st story transcript <;> rfl

end AIDebate
